import Mathlib

/-!
Shallow embedding of the authentication / session core of `corderos-app`
(`src/app/security.py` and `src/app/auth_ldap.py`).

Modelling conventions:
- Python timestamps (`time.time()` floats) are rationals (`ℚ`).
- The session carrier is the value stored under `SESSION_DATA_KEY` in the
  (signed) starlette session dict: `Carrier := Option PyVal`, `none` meaning
  the key is absent.  Cookie signing/tampering at the byte level is outside
  the embedding; a tampered cookie surfaces here as an absent or
  ill-structured payload.
- Directory (LDAP) calls are modelled by an oracle `Directory` whose fields
  give the outcome of each kind of call made during one request; a raised
  ldap3 exception is an `Except.error`.
- `HTTPException(status, detail)` is `HTTPError`.
-/

deriving instance DecidableEq for Except

namespace Corderos

/-- Dynamic Python values as they can appear inside the deserialized session
payload.  Only the constructors reachable through a cookie payload are
modelled. -/
inductive PyVal where
  | str (s : String)
  | bool (b : Bool)
  | num (q : ℚ)
  | none
  | dict (entries : List (String × PyVal))
  | list (xs : List PyVal)

/-- Python `bool(v)` truthiness. -/
def truthy : PyVal → Bool
  | .str s => !s.isEmpty
  | .bool b => b
  | .num q => decide (q ≠ 0)
  | .none => false
  | .dict es => !es.isEmpty
  | .list xs => !xs.isEmpty

/-- Python `str(v)`.  `str` never raises.  Only the identity on strings and
the rendering of booleans are relied upon by any theorem; numeric and
container rendering is schematic (CPython repr formatting is out of scope). -/
def pyStr : PyVal → String
  | .str s => s
  | .bool b => if b then "True" else "False"
  | .num q => toString q
  | .none => "None"
  | .dict _ => "<dict>"
  | .list _ => "<list>"

/-- Python `float(v)`: `some` when the conversion succeeds, `none` when it
raises `TypeError`/`ValueError`.  Strings parse when they are integer
literals (fractional-literal parsing is elided; no claim depends on
string-valued timestamps). -/
def pyFloat? : PyVal → Option ℚ
  | .num q => some q
  | .bool b => some (if b then 1 else 0)
  | .str s => (s.toInt?).map fun n => (n : ℚ)
  | _ => Option.none

/-- First-match lookup in a deserialized dict (Python dict keys are unique,
so first-match agrees with `data[k]`). -/
def dictGet : List (String × PyVal) → String → Option PyVal
  | [], _ => Option.none
  | (k, v) :: rest, key => if k = key then some v else dictGet rest key

/-- The value stored under `SESSION_DATA_KEY` in `request.session`;
`none` = key absent (or the whole cookie missing/unsigned). -/
abbrev Carrier := Option PyVal

/-- `SessionUser` (security.py): the shape persisted inside the signed
session cookie. -/
structure SessionUser where
  uid : String
  is_admin : Bool
  issued_at : ℚ
  expires_at : ℚ
deriving DecidableEq, Repr

/-- `HTTPException(status_code, detail)`. -/
structure HTTPError where
  status : Nat
  detail : String
deriving DecidableEq, Repr

/-- `_DEFAULT_SESSION_SECONDS = 60 * 60 * 12`. -/
def _DEFAULT_SESSION_SECONDS : Int := 60 * 60 * 12

/-- `_session_ttl_seconds` (security.py:25-31).  The argument is the result
of `int(os.getenv("SESSION_MAX_AGE", default))`: `none` is the raise case
(unparsable value); an unset variable parses to the default, which is also
covered by `none` since `max default 60 = default`. -/
def _session_ttl_seconds (env : Option Int) : Int :=
  match env with
  | Option.none => _DEFAULT_SESSION_SECONDS
  | some parsed => max parsed 60

/-- Serialization of a `SessionUser` into the session dict, as written by
`establish_session` / the sliding-renewal branch of `require_user`. -/
def encodeSession (s : SessionUser) : PyVal :=
  .dict [("uid", .str s.uid), ("is_admin", .bool s.is_admin),
         ("issued_at", .num s.issued_at), ("expires_at", .num s.expires_at)]

/-- `establish_session` (security.py:34-44).  Returns the session value and
the new carrier (`request.session[SESSION_DATA_KEY] = session`). -/
def establish_session (uid : String) (is_admin : Bool) (now : ℚ)
    (env : Option Int) : SessionUser × Carrier :=
  let ttl := _session_ttl_seconds env
  let session : SessionUser := ⟨uid, is_admin, now, now + (ttl : ℚ)⟩
  (session, some (encodeSession session))

/-- `_load_session_user` (security.py:47-62): structural checks, then
`str`/`bool`/`float` coercions under `try/except (TypeError, ValueError)`. -/
def _load_session_user (carrier : Carrier) : Option SessionUser :=
  match carrier with
  | Option.none => Option.none
  | some data =>
    match data with
    | .dict es =>
      match dictGet es "uid", dictGet es "is_admin",
            dictGet es "issued_at", dictGet es "expires_at" with
      | some uidv, some iav, some issuedv, some expiresv =>
        match pyFloat? issuedv, pyFloat? expiresv with
        | some issued, some expires =>
          some ⟨pyStr uidv, truthy iav, issued, expires⟩
        | _, _ => Option.none
      | _, _, _, _ => Option.none
    | _ => Option.none

/-- `clear_session` (security.py:65-66): pops the key. -/
def clear_session (_carrier : Carrier) : Carrier := Option.none

/-- `require_user` (security.py:69-91).  Returns the outcome together with
the resulting carrier state. -/
def require_user (carrier : Carrier) (now : ℚ) (env : Option Int) :
    Except HTTPError SessionUser × Carrier :=
  match _load_session_user carrier with
  | Option.none =>
    (.error ⟨401, "Autenticación requerida"⟩, carrier)
  | some user =>
    if user.expires_at ≤ now then
      (.error ⟨401, "La sesión ha expirado"⟩, clear_session carrier)
    else
      let ttl := _session_ttl_seconds env
      if user.expires_at - now ≤ (ttl : ℚ) / 2 then
        let refreshed : SessionUser := ⟨user.uid, user.is_admin, now, now + (ttl : ℚ)⟩
        (.ok refreshed, some (encodeSession refreshed))
      else
        (.ok user, carrier)

/-- `require_admin` (security.py:94-98). -/
def require_admin (carrier : Carrier) (now : ℚ) (env : Option Int) :
    Except HTTPError SessionUser × Carrier :=
  match require_user carrier now env with
  | (.error e, c) => (.error e, c)
  | (.ok user, c) =>
    if !user.is_admin then
      (.error ⟨403, "Se requieren privilegios de administrador"⟩, c)
    else
      (.ok user, c)

/-- A directory entry as returned by an ldap3 search: its distinguished
name (`entry_dn`) and, when present and non-empty, its `uid` attribute
rendered by `str` (`uid = none` models `"uid" in entry` being false). -/
structure Entry where
  dn : String
  uid : Option String

/-- Oracle for the directory (ldap3) calls one request can make.  Each field
gives the outcome of the corresponding call during this attempt; an
`Except.error` is a raised ldap3 exception (bind failure, timeout, refused
connection, ...). -/
structure Directory where
  /-- `Connection(server, LDAP_BIND_DN, LDAP_BIND_PASSWORD, auto_bind=True)`. -/
  serviceBind : Except String Unit
  /-- `conn.search` with filter `(uid={username})` (login, auth_ldap.py:125-130). -/
  searchUid : String → Except String (List Entry)
  /-- `conn.search` with filter `(|(uid={username})(cn={username}))`
  (ldap_authenticate, auth_ldap.py:85-90). -/
  searchUidOrCn : String → Except String (List Entry)
  /-- `Connection(server, user_dn, password, auto_bind=True)`: a wrong
  password raises `LDAPBindError`, indistinguishable here from any other
  directory error. -/
  userBind : String → String → Except String Unit
  /-- `conn.search` on the groups subtree with filter
  `(&(objectClass=groupOfNames)(cn=admins)(member={user_dn}))`
  (is_admin, auth_ldap.py:106-110). -/
  adminSearch : String → Except String (List Entry)

/-- `is_admin(conn, user_dn)` (auth_ldap.py:104-111).  Note: the function
body has no exception handling, so a raised directory error propagates to
the caller. -/
def is_admin (d : Directory) (user_dn : String) : Except String Bool :=
  match d.adminSearch user_dn with
  | .error e => .error e
  | .ok entries => .ok (decide (0 < entries.length))

/-- `uid_value = str(entry.uid) if "uid" in entry and str(entry.uid) else
username` (auth_ldap.py:136). -/
def uidValue (entry : Entry) (username : String) : String :=
  match entry.uid with
  | some u => if u.isEmpty then username else u
  | Option.none => username

/-- `ldap_authenticate(username, password)` (auth_ldap.py:81-102): service
bind, search on `(|(uid=)(cn=))`, then bind as the first entry's dn; any
exception anywhere yields `False`. -/
def ldap_authenticate (d : Directory) (username password : String) : Bool :=
  match d.serviceBind with
  | .error _ => false
  | .ok _ =>
    match d.searchUidOrCn username with
    | .error _ => false
    | .ok [] => false
    | .ok (entry :: _) =>
      match d.userBind entry.dn password with
      | .error _ => false
      | .ok _ => true

/-- `login` (auth_ldap.py:120-151).  Result: on success the redirect target
and the issued session; on failure the `HTTPException`.  The second
component is the resulting carrier state (`request.session` under the
session key).  The `except HTTPException: raise` / `except Exception:
HTTPException(401, "Invalid credentials")` structure is reflected branch by
branch.  On the success path the source calls `clear_session(request)` and
then `establish_session(...)`; since `establish_session` unconditionally
overwrites the same session key, the net carrier state is the one produced
by `establish_session`, which is what the success branch returns. -/
def login (d : Directory) (username password : String) (carrier : Carrier)
    (now : ℚ) (env : Option Int) :
    Except HTTPError (String × SessionUser) × Carrier :=
  match d.serviceBind with
  | .error _ => (.error ⟨401, "Invalid credentials"⟩, carrier)
  | .ok _ =>
    match d.searchUid username with
    | .error _ => (.error ⟨401, "Invalid credentials"⟩, carrier)
    | .ok [] => (.error ⟨401, "Invalid user"⟩, carrier)
    | .ok (entry :: _) =>
      match d.userBind entry.dn password with
      | .error _ => (.error ⟨401, "Invalid credentials"⟩, carrier)
      | .ok _ =>
        match d.serviceBind with
        | .error _ => (.error ⟨401, "Invalid credentials"⟩, carrier)
        | .ok _ =>
          match is_admin d entry.dn with
          | .error _ => (.error ⟨401, "Invalid credentials"⟩, carrier)
          | .ok is_user_admin =>
            (.ok ((if is_user_admin then "/auth/dashboard_admin"
                   else "/auth/dashboard_user"),
                  (establish_session (uidValue entry username) is_user_admin
                    now env).1),
             (establish_session (uidValue entry username) is_user_admin
               now env).2)

/-- A directory with exactly one user `alice` whose password bind always
fails; looking up any other name returns no entries. -/
def exampleDir : Directory where
  serviceBind := .ok ()
  searchUid := fun u =>
    if u = "alice" then .ok [⟨"uid=alice,ou=Users,dc=kaligulix,dc=com", some "alice"⟩]
    else .ok []
  searchUidOrCn := fun u =>
    if u = "alice" then .ok [⟨"uid=alice,ou=Users,dc=kaligulix,dc=com", some "alice"⟩]
    else .ok []
  userBind := fun _ _ => .error "invalid credentials"
  adminSearch := fun _ => .ok []

/-- A directory in which the search for `alice` is ambiguous (two entries);
the supplied secret binds successfully as the first entry's dn only. -/
def ambiguousDir : Directory where
  serviceBind := .ok ()
  searchUid := fun _ =>
    .ok [⟨"uid=alice,ou=Users,dc=kaligulix,dc=com", some "alice"⟩,
         ⟨"uid=alice,ou=People,dc=kaligulix,dc=com", some "alice"⟩]
  searchUidOrCn := fun _ =>
    .ok [⟨"uid=alice,ou=Users,dc=kaligulix,dc=com", some "alice"⟩,
         ⟨"uid=alice,ou=People,dc=kaligulix,dc=com", some "alice"⟩]
  userBind := fun dn _ =>
    if dn = "uid=alice,ou=Users,dc=kaligulix,dc=com" then .ok ()
    else .error "bind failed"
  adminSearch := fun _ => .ok []

/-- A directory in which credential verification succeeds for `alice` but
the admin-group membership search raises a directory error. -/
def adminErrDir : Directory where
  serviceBind := .ok ()
  searchUid := fun _ =>
    .ok [⟨"uid=alice,ou=Users,dc=kaligulix,dc=com", some "alice"⟩]
  searchUidOrCn := fun _ =>
    .ok [⟨"uid=alice,ou=Users,dc=kaligulix,dc=com", some "alice"⟩]
  userBind := fun _ _ => .ok ()
  adminSearch := fun _ => .error "directory unavailable"

/-- A structurally complete carrier whose payload has an empty subject and
`issued_at > expires_at`. -/
def badCarrier : Carrier :=
  some (.dict [("uid", .str ""), ("is_admin", .bool false),
               ("issued_at", .num 99999), ("expires_at", .num 43200)])

/- ------------------------------------------------------------------ -/
/- Helper lemmas                                                       -/
/- ------------------------------------------------------------------ -/

/-- The effective TTL is at least one minute in every configuration. -/
theorem session_ttl_ge_sixty (env : Option Int) :
    (60 : Int) ≤ _session_ttl_seconds env := by
  cases env with
  | none => decide
  | some v => exact le_max_right v 60

/-- Deserializing an encoded session recovers it exactly. -/
theorem load_encodeSession (s : SessionUser) :
    _load_session_user (some (encodeSession s)) = some s := rfl

/-- On a loadable, unexpired carrier, `require_user` succeeds and preserves
subject and role. -/
theorem require_user_ok (c : Carrier) (now : ℚ) (env : Option Int)
    (u : SessionUser) (hload : _load_session_user c = some u)
    (hlive : now < u.expires_at) :
    ∃ r c2, require_user c now env = (.ok r, c2) ∧
      r.uid = u.uid ∧ r.is_admin = u.is_admin := by
  simp only [require_user, hload]
  rw [if_neg (not_le.mpr hlive)]
  by_cases hr : u.expires_at - now ≤ ((_session_ttl_seconds env : Int) : ℚ) / 2
  · rw [if_pos hr]
    exact ⟨_, _, rfl, rfl, rfl⟩
  · rw [if_neg hr]
    exact ⟨_, _, rfl, rfl, rfl⟩

/-- Behaviour of the pass-through branch of `require_user` (first half of
the TTL). -/
theorem require_user_pass (c : Carrier) (now : ℚ) (env : Option Int)
    (u : SessionUser) (hload : _load_session_user c = some u)
    (hlive : now < u.expires_at)
    (hgt : ((_session_ttl_seconds env : Int) : ℚ) / 2 < u.expires_at - now) :
    require_user c now env = (.ok u, c) := by
  simp only [require_user, hload]
  rw [if_neg (not_le.mpr hlive), if_neg (not_le.mpr hgt)]

/-- Behaviour of the sliding-renewal branch of `require_user`. -/
theorem require_user_renew (c : Carrier) (now : ℚ) (env : Option Int)
    (u : SessionUser) (hload : _load_session_user c = some u)
    (hlive : now < u.expires_at)
    (hren : u.expires_at - now ≤ ((_session_ttl_seconds env : Int) : ℚ) / 2) :
    require_user c now env =
      (.ok ⟨u.uid, u.is_admin, now, now + ((_session_ttl_seconds env : Int) : ℚ)⟩,
       some (encodeSession
         ⟨u.uid, u.is_admin, now, now + ((_session_ttl_seconds env : Int) : ℚ)⟩)) := by
  simp only [require_user, hload]
  rw [if_neg (not_le.mpr hlive), if_pos hren]

/-- Exhaustive description of `login`'s outcomes: every failure leaves the
carrier untouched and is a 401 with detail "Invalid user" (empty search)
or "Invalid credentials" (any other phase); every success stores the
issued session in the carrier. -/
theorem login_cases (d : Directory) (username password : String) (c : Carrier)
    (now : ℚ) (env : Option Int) :
    ((login d username password c now env).2 = c ∧
      ((login d username password c now env).1 = .error ⟨401, "Invalid user"⟩ ∨
       (login d username password c now env).1 = .error ⟨401, "Invalid credentials"⟩)) ∨
    (∃ target s, login d username password c now env =
        (.ok (target, s), some (encodeSession s))) := by
  unfold login
  split
  · exact .inl ⟨rfl, .inr rfl⟩
  · split
    · exact .inl ⟨rfl, .inr rfl⟩
    · exact .inl ⟨rfl, .inl rfl⟩
    · split
      · exact .inl ⟨rfl, .inr rfl⟩
      · split
        · exact .inl ⟨rfl, .inr rfl⟩
        · split
          · exact .inl ⟨rfl, .inr rfl⟩
          · exact .inr ⟨_, _, rfl⟩

/- ------------------------------------------------------------------ -/
/- Claim theorems                                                      -/
/- ------------------------------------------------------------------ -/

/-- C5: for a loadable, unexpired carrier, a `require_user` call made while
the remaining lifetime exceeds half the TTL returns the session and the
carrier unchanged; a call made when the remaining lifetime is at most half
the TTL replaces the carrier with a re-encoded session with the same
subject and role, `issued_at` equal to the current time, and an
`expires_at` strictly greater than the previous one. -/
theorem C5_sliding_renewal (c : Carrier) (now : ℚ) (env : Option Int)
    (u : SessionUser) (hload : _load_session_user c = some u)
    (hlive : now < u.expires_at) :
    ((((_session_ttl_seconds env : Int) : ℚ) / 2 < u.expires_at - now →
        require_user c now env = (.ok u, c)) ∧
     (u.expires_at - now ≤ ((_session_ttl_seconds env : Int) : ℚ) / 2 →
        require_user c now env =
          (.ok ⟨u.uid, u.is_admin, now, now + ((_session_ttl_seconds env : Int) : ℚ)⟩,
           some (encodeSession
             ⟨u.uid, u.is_admin, now, now + ((_session_ttl_seconds env : Int) : ℚ)⟩)) ∧
        u.expires_at < now + ((_session_ttl_seconds env : Int) : ℚ))) := by
  have ht : (60 : ℚ) ≤ ((_session_ttl_seconds env : Int) : ℚ) := by
    exact_mod_cast session_ttl_ge_sixty env
  constructor
  · intro hgt
    exact require_user_pass c now env u hload hlive hgt
  · intro hle
    exact ⟨require_user_renew c now env u hload hlive hle, by linarith⟩

/-- C5 witness: on a carrier issued at 0 with `expires_at = 100`, a call at
`now = 90` (past the midpoint of the default 43200-second TTL) re-issues
the session with `issued_at = 90`, `expires_at = 43290`. -/
theorem C5_sliding_renewal_witness :
    _load_session_user (some (encodeSession ⟨"alice", false, 0, 100⟩)) =
        some ⟨"alice", false, 0, 100⟩ ∧
    (90 : ℚ) < (100 : ℚ) ∧
    ((100 : ℚ) - 90 ≤ ((_session_ttl_seconds Option.none : Int) : ℚ) / 2 →
      require_user (some (encodeSession ⟨"alice", false, 0, 100⟩)) 90 Option.none =
        (.ok ⟨"alice", false, 90, 90 + ((_session_ttl_seconds Option.none : Int) : ℚ)⟩,
         some (encodeSession
           ⟨"alice", false, 90, 90 + ((_session_ttl_seconds Option.none : Int) : ℚ)⟩)) ∧
      (100 : ℚ) < 90 + ((_session_ttl_seconds Option.none : Int) : ℚ)) :=
  ⟨rfl, by norm_num,
   (C5_sliding_renewal (some (encodeSession ⟨"alice", false, 0, 100⟩)) 90 Option.none
     ⟨"alice", false, 0, 100⟩ rfl (by norm_num)).2⟩

/-- C6: a loadable carrier whose `expires_at` is at or before the current
time is rejected by `require_user` with a 401, and the carrier is cleared
as part of that rejection. -/
theorem C6_expiry_rejected (c : Carrier) (now : ℚ) (env : Option Int)
    (u : SessionUser) (hload : _load_session_user c = some u)
    (hexp : u.expires_at ≤ now) :
    require_user c now env = (.error ⟨401, "La sesión ha expirado"⟩, Option.none) := by
  simp only [require_user, hload]
  rw [if_pos hexp]
  rfl

/-- C6 witness: a carrier that expired at time 100, validated at 200. -/
theorem C6_expiry_rejected_witness :
    _load_session_user (some (encodeSession ⟨"alice", false, 0, 100⟩)) =
        some ⟨"alice", false, 0, 100⟩ ∧
    (100 : ℚ) ≤ (200 : ℚ) ∧
    require_user (some (encodeSession ⟨"alice", false, 0, 100⟩)) 200 Option.none =
      (.error ⟨401, "La sesión ha expirado"⟩, Option.none) :=
  ⟨rfl, by norm_num,
   C6_expiry_rejected (some (encodeSession ⟨"alice", false, 0, 100⟩)) 200 Option.none
     ⟨"alice", false, 0, 100⟩ rfl (by norm_num)⟩

/-- C7: validating the carrier immediately after `establish_session`
returns the very session that was issued (same subject, same role, carrier
untouched), and the issued session satisfies
`expires_at - issued_at = TTL` exactly, in every configuration. -/
theorem C7_round_trip (uid : String) (adm : Bool) (now : ℚ) (env : Option Int) :
    require_user (establish_session uid adm now env).2 now env =
      (.ok (establish_session uid adm now env).1,
       (establish_session uid adm now env).2) ∧
    (establish_session uid adm now env).1.uid = uid ∧
    (establish_session uid adm now env).1.is_admin = adm ∧
    (establish_session uid adm now env).1.expires_at -
        (establish_session uid adm now env).1.issued_at =
      ((_session_ttl_seconds env : Int) : ℚ) := by
  have ht : (60 : ℚ) ≤ ((_session_ttl_seconds env : Int) : ℚ) := by
    exact_mod_cast session_ttl_ge_sixty env
  refine ⟨?_, rfl, rfl, by simp [establish_session]⟩
  have h1 : ¬ ((⟨uid, adm, now, now + ((_session_ttl_seconds env : Int) : ℚ)⟩ :
      SessionUser).expires_at ≤ now) := by
    show ¬ (now + ((_session_ttl_seconds env : Int) : ℚ) ≤ now)
    push_neg; linarith
  have h2 : ¬ ((⟨uid, adm, now, now + ((_session_ttl_seconds env : Int) : ℚ)⟩ :
      SessionUser).expires_at - now ≤ ((_session_ttl_seconds env : Int) : ℚ) / 2) := by
    show ¬ (now + ((_session_ttl_seconds env : Int) : ℚ) - now ≤
      ((_session_ttl_seconds env : Int) : ℚ) / 2)
    push_neg; linarith
  show require_user (some (encodeSession
    ⟨uid, adm, now, now + ((_session_ttl_seconds env : Int) : ℚ)⟩)) now env = _
  simp only [require_user, load_encodeSession]
  rw [if_neg h1, if_neg h2]
  rfl

/-- C8 counterexample: `require_admin` on a valid Admin session inside the
renewal window does not return the session unchanged — `issued_at` and
`expires_at` are refreshed. -/
theorem C8_not_unchanged :
    (require_admin (some (encodeSession ⟨"alice", true, 0, 100⟩)) 90 Option.none).1 =
      .ok ⟨"alice", true, 90, 43290⟩ ∧
    (⟨"alice", true, 90, 43290⟩ : SessionUser) ≠ ⟨"alice", true, 0, 100⟩ := by
  have hren : (⟨"alice", true, 0, 100⟩ : SessionUser).expires_at - 90 ≤
      ((_session_ttl_seconds Option.none : Int) : ℚ) / 2 := by
    show (100 : ℚ) - 90 ≤ ((_session_ttl_seconds Option.none : Int) : ℚ) / 2
    norm_num [_session_ttl_seconds, _DEFAULT_SESSION_SECONDS]
  have hlive : (90 : ℚ) < (⟨"alice", true, 0, 100⟩ : SessionUser).expires_at := by
    show (90 : ℚ) < 100
    norm_num
  have hru := require_user_renew (some (encodeSession ⟨"alice", true, 0, 100⟩)) 90
      Option.none ⟨"alice", true, 0, 100⟩ (load_encodeSession _) hlive hren
  have hval : (90 : ℚ) + ((_session_ttl_seconds Option.none : Int) : ℚ) = 43290 := by
    norm_num [_session_ttl_seconds, _DEFAULT_SESSION_SECONDS]
  refine ⟨?_, by decide⟩
  simp only [require_admin, hru, hval]
  rfl

/-- C8 (amended): on a valid, unexpired Standard-role session,
`require_admin` fails with the 403 Forbidden error (never a 401); on a
valid Admin-role session it returns exactly `require_user`'s result — same
subject and role, with timestamps refreshed only per sliding renewal. -/
theorem C8_require_admin (c : Carrier) (now : ℚ) (env : Option Int)
    (u : SessionUser) (hload : _load_session_user c = some u)
    (hlive : now < u.expires_at) :
    (u.is_admin = false →
      (require_admin c now env).1 =
        .error ⟨403, "Se requieren privilegios de administrador"⟩) ∧
    (u.is_admin = true →
      require_admin c now env = require_user c now env ∧
      ∃ r, (require_user c now env).1 = .ok r ∧ r.uid = u.uid ∧ r.is_admin = true) := by
  obtain ⟨r, c2, hru, hruid, hradm⟩ := require_user_ok c now env u hload hlive
  constructor
  · intro hstd
    simp only [require_admin, hru]
    rw [if_pos (by simp [hradm, hstd])]
  · intro hadm
    refine ⟨?_, r, by simp [hru], hruid, by rw [hradm, hadm]⟩
    simp only [require_admin, hru]
    rw [if_neg (by simp [hradm, hadm])]

/-- C8 witness: a fresh Standard-role session is rejected with 403. -/
theorem C8_require_admin_witness :
    _load_session_user (some (encodeSession ⟨"bob", false, 0, 43200⟩)) =
        some ⟨"bob", false, 0, 43200⟩ ∧
    (0 : ℚ) < (43200 : ℚ) ∧
    ((⟨"bob", false, 0, 43200⟩ : SessionUser).is_admin = false →
      (require_admin (some (encodeSession ⟨"bob", false, 0, 43200⟩)) 0 Option.none).1 =
        .error ⟨403, "Se requieren privilegios de administrador"⟩) :=
  ⟨rfl, by norm_num,
   (C8_require_admin (some (encodeSession ⟨"bob", false, 0, 43200⟩)) 0 Option.none
     ⟨"bob", false, 0, 43200⟩ rfl (by norm_num)).1⟩

/-- C9 counterexample: `require_user` accepts (as Valid, unchanged) a
structurally complete carrier whose subject is empty and whose
`issued_at` (99999) exceeds its `expires_at` (43200): the claimed
data-model invariant does not hold of every accepted session. -/
theorem C9_validate_accepts_bad :
    (require_user badCarrier 0 Option.none).1 = .ok ⟨"", false, 99999, 43200⟩ ∧
    ¬ ((99999 : ℚ) < (43200 : ℚ)) ∧ ("" : String).isEmpty = true := by
  have hlive : (0 : ℚ) < (⟨"", false, 99999, 43200⟩ : SessionUser).expires_at := by
    show (0 : ℚ) < 43200
    norm_num
  have hgt : ((_session_ttl_seconds Option.none : Int) : ℚ) / 2 <
      (⟨"", false, 99999, 43200⟩ : SessionUser).expires_at - 0 := by
    show ((_session_ttl_seconds Option.none : Int) : ℚ) / 2 < (43200 : ℚ) - 0
    norm_num [_session_ttl_seconds, _DEFAULT_SESSION_SECONDS]
  have h := require_user_pass badCarrier 0 Option.none ⟨"", false, 99999, 43200⟩
    rfl hlive hgt
  exact ⟨by rw [h], by norm_num, rfl⟩

/-- C9 (amended): sessions produced by `establish_session` carry the
supplied subject verbatim and satisfy `issued_at < expires_at` in every
configuration (the effective TTL is always ≥ 60), and a session produced
by the sliding-renewal branch of `require_user` also satisfies
`issued_at < expires_at`; but neither issuance nor validation enforces a
non-empty subject, and validation accepts carriers violating the
timestamp invariant. -/
theorem C9_issued_invariant (uid : String) (adm : Bool) (now : ℚ)
    (env : Option Int) (c : Carrier) (u : SessionUser)
    (hload : _load_session_user c = some u) (hlive : now < u.expires_at)
    (hren : u.expires_at - now ≤ ((_session_ttl_seconds env : Int) : ℚ) / 2) :
    ((establish_session uid adm now env).1.issued_at <
        (establish_session uid adm now env).1.expires_at ∧
     (establish_session uid adm now env).1.uid = uid) ∧
    (∃ r, require_user c now env = (.ok r, some (encodeSession r)) ∧
       r.issued_at < r.expires_at) := by
  have ht : (60 : ℚ) ≤ ((_session_ttl_seconds env : Int) : ℚ) := by
    exact_mod_cast session_ttl_ge_sixty env
  refine ⟨⟨?_, rfl⟩, ?_⟩
  · show now < now + ((_session_ttl_seconds env : Int) : ℚ)
    linarith
  · exact ⟨_, require_user_renew c now env u hload hlive hren,
      by simp only; linarith⟩

/-- C9 witness: issuance for "carol" at time 90, next to a renewal of a
carrier issued at 0 expiring at 100. -/
theorem C9_issued_invariant_witness :
    _load_session_user (some (encodeSession ⟨"bob", false, 0, 100⟩)) =
        some ⟨"bob", false, 0, 100⟩ ∧
    (90 : ℚ) < (100 : ℚ) ∧
    (100 : ℚ) - 90 ≤ ((_session_ttl_seconds Option.none : Int) : ℚ) / 2 ∧
    (((establish_session "carol" true 90 Option.none).1.issued_at <
        (establish_session "carol" true 90 Option.none).1.expires_at ∧
      (establish_session "carol" true 90 Option.none).1.uid = "carol") ∧
     (∃ r, require_user (some (encodeSession ⟨"bob", false, 0, 100⟩)) 90 Option.none =
        (.ok r, some (encodeSession r)) ∧ r.issued_at < r.expires_at)) :=
  ⟨rfl, by decide,
   by norm_num [_session_ttl_seconds, _DEFAULT_SESSION_SECONDS],
   C9_issued_invariant "carol" true 90 Option.none
     (some (encodeSession ⟨"bob", false, 0, 100⟩)) ⟨"bob", false, 0, 100⟩
     rfl (by decide)
     (by norm_num [_session_ttl_seconds, _DEFAULT_SESSION_SECONDS])⟩

/-- C10: session deserialization coerces the role field with `bool(...)`
and never checks its type: for every payload dict carrying the four keys
with numeric timestamps, the resulting session's role is exactly the
truthiness of the stored `is_admin` value — so the non-empty string
`"false"` validates as an Admin-role session, while falsy values
(`False`, `0`, `""`) yield a Standard-role session. -/
theorem C10_truthy_role (uidv iav : PyVal) (rest : List (String × PyVal))
    (iq e2 : ℚ) :
    _load_session_user (some (.dict (("uid", uidv) :: ("is_admin", iav) ::
        ("issued_at", .num iq) :: ("expires_at", .num e2) :: rest))) =
      some ⟨pyStr uidv, truthy iav, iq, e2⟩ ∧
    truthy (.str "false") = true ∧
    truthy (.bool false) = false ∧
    truthy (.num 0) = false ∧
    truthy (.str "") = false := by
  refine ⟨rfl, rfl, rfl, ?_, rfl⟩
  simp [truthy]

/-- C1 counterexample: with one directory, the failing attempt
(`"bob"`, unknown username) and the failing attempt (`"alice"`, wrong
password) return different error results — the detail text reveals which
phase rejected the attempt. -/
theorem C1_error_details_differ :
    login exampleDir "bob" "pw" Option.none 0 Option.none =
      (.error ⟨401, "Invalid user"⟩, Option.none) ∧
    login exampleDir "alice" "wrongpw" Option.none 0 Option.none =
      (.error ⟨401, "Invalid credentials"⟩, Option.none) ∧
    (⟨401, "Invalid user"⟩ : HTTPError) ≠ (⟨401, "Invalid credentials"⟩ : HTTPError) :=
  ⟨rfl, rfl, by decide⟩

/-- C1 (amended): every failing login attempt fails with HTTP status 401,
but the error is not one and the same across phases — an unknown username
yields detail "Invalid user" while every other failing phase yields
"Invalid credentials"; only the status code is uniform. -/
theorem C1_failing_status_401 (d : Directory) (username password : String)
    (c : Carrier) (now : ℚ) (env : Option Int) (e : HTTPError) (c2 : Carrier)
    (h : login d username password c now env = (.error e, c2)) :
    e.status = 401 := by
  have h1 : (login d username password c now env).1 = .error e := by rw [h]
  rcases login_cases d username password c now env with ⟨-, herr | herr⟩ | ⟨t, s, hok⟩
  · rw [h1] at herr
    injection herr with he
    subst he
    rfl
  · rw [h1] at herr
    injection herr with he
    subst he
    rfl
  · rw [h] at hok
    simp at hok

/-- C1 witness: a concrete failing attempt, status 401. -/
theorem C1_failing_status_401_witness :
    login exampleDir "bob" "pw" (some (.str "untouched")) 0 Option.none =
      (.error ⟨401, "Invalid user"⟩, some (.str "untouched")) ∧
    (⟨401, "Invalid user"⟩ : HTTPError).status = 401 :=
  ⟨rfl, C1_failing_status_401 exampleDir "bob" "pw" (some (.str "untouched")) 0
    Option.none ⟨401, "Invalid user"⟩ (some (.str "untouched")) rfl⟩

/-- C2 counterexample: a search matching two entries does not produce
`InvalidCredentials` — login binds as the first entry and succeeds. -/
theorem C2_ambiguous_login_succeeds :
    ambiguousDir.searchUid "alice" =
      .ok [⟨"uid=alice,ou=Users,dc=kaligulix,dc=com", some "alice"⟩,
           ⟨"uid=alice,ou=People,dc=kaligulix,dc=com", some "alice"⟩] ∧
    login ambiguousDir "alice" "pw" Option.none 0 Option.none =
      (.ok ("/auth/dashboard_user",
            (establish_session "alice" false 0 Option.none).1),
       (establish_session "alice" false 0 Option.none).2) ∧
    ldap_authenticate ambiguousDir "alice" "pw" = true :=
  ⟨rfl, rfl, rfl⟩

/-- C2 (amended): when the search for the identity label returns more than
one entry, ambiguity is resolved by picking the first result: if the
supplied secret binds as the first entry's dn (and the membership check
completes), login succeeds with the first entry's identity, regardless of
the other matches. -/
theorem C2_first_result_wins (d : Directory) (username password : String)
    (c : Carrier) (now : ℚ) (env : Option Int) (e1 e2 : Entry)
    (rest gs : List Entry)
    (hsb : d.serviceBind = .ok ())
    (hsearch : d.searchUid username = .ok (e1 :: e2 :: rest))
    (hbind : d.userBind e1.dn password = .ok ())
    (hadmin : d.adminSearch e1.dn = .ok gs) :
    ∃ target s, login d username password c now env =
        (.ok (target, s), some (encodeSession s)) ∧
      s.uid = uidValue e1 username := by
  simp only [login, hsb, hsearch, hbind, is_admin, hadmin, establish_session,
    clear_session]
  exact ⟨_, _, rfl, rfl⟩

/-- C2 witness: the ambiguous directory instantiates the amended claim. -/
theorem C2_first_result_wins_witness :
    ambiguousDir.serviceBind = .ok () ∧
    ambiguousDir.searchUid "alice" =
      .ok [⟨"uid=alice,ou=Users,dc=kaligulix,dc=com", some "alice"⟩,
           ⟨"uid=alice,ou=People,dc=kaligulix,dc=com", some "alice"⟩] ∧
    ambiguousDir.userBind "uid=alice,ou=Users,dc=kaligulix,dc=com" "pw" = .ok () ∧
    ambiguousDir.adminSearch "uid=alice,ou=Users,dc=kaligulix,dc=com" = .ok [] ∧
    (∃ target s, login ambiguousDir "alice" "pw" Option.none 0 Option.none =
        (.ok (target, s), some (encodeSession s)) ∧
      s.uid = uidValue ⟨"uid=alice,ou=Users,dc=kaligulix,dc=com", some "alice"⟩ "alice") :=
  ⟨rfl, rfl, rfl, rfl,
   C2_first_result_wins ambiguousDir "alice" "pw" Option.none 0 Option.none
     ⟨"uid=alice,ou=Users,dc=kaligulix,dc=com", some "alice"⟩
     ⟨"uid=alice,ou=People,dc=kaligulix,dc=com", some "alice"⟩ [] []
     rfl rfl rfl rfl⟩

/-- C3 counterexample: a directory error during the admin-group membership
check does not yield `false`/a Standard-role session — `is_admin`
propagates the error and the whole login fails with 401 "Invalid
credentials", leaving the carrier unchanged. -/
theorem C3_admin_error_aborts_login :
    is_admin adminErrDir "uid=alice,ou=Users,dc=kaligulix,dc=com" =
      .error "directory unavailable" ∧
    login adminErrDir "alice" "pw" Option.none 0 Option.none =
      (.error ⟨401, "Invalid credentials"⟩, Option.none) :=
  ⟨rfl, rfl⟩

/-- C3 (amended): for every verified identity, a directory error raised
during the admin-group membership check propagates out of `is_admin`
(which has no exception handling) and causes the whole login to fail with
`InvalidCredentials`; it never degrades the session to Standard. -/
theorem C3_admin_error_propagates (d : Directory) (username password : String)
    (c : Carrier) (now : ℚ) (env : Option Int) (entry : Entry)
    (rest : List Entry) (msg : String)
    (hsb : d.serviceBind = .ok ())
    (hsearch : d.searchUid username = .ok (entry :: rest))
    (hbind : d.userBind entry.dn password = .ok ())
    (herr : d.adminSearch entry.dn = .error msg) :
    is_admin d entry.dn = .error msg ∧
    login d username password c now env =
      (.error ⟨401, "Invalid credentials"⟩, c) := by
  constructor
  · simp [is_admin, herr]
  · simp only [login, hsb, hsearch, hbind, is_admin, herr]

/-- C3 witness: the error-raising directory instantiates the amended claim. -/
theorem C3_admin_error_propagates_witness :
    adminErrDir.serviceBind = .ok () ∧
    adminErrDir.searchUid "alice" =
      .ok [⟨"uid=alice,ou=Users,dc=kaligulix,dc=com", some "alice"⟩] ∧
    adminErrDir.userBind "uid=alice,ou=Users,dc=kaligulix,dc=com" "pw" = .ok () ∧
    adminErrDir.adminSearch "uid=alice,ou=Users,dc=kaligulix,dc=com" =
      .error "directory unavailable" ∧
    (is_admin adminErrDir "uid=alice,ou=Users,dc=kaligulix,dc=com" =
        .error "directory unavailable" ∧
     login adminErrDir "alice" "pw" (some (.str "keep")) 0 Option.none =
        (.error ⟨401, "Invalid credentials"⟩, some (.str "keep"))) :=
  ⟨rfl, rfl, rfl, rfl,
   C3_admin_error_propagates adminErrDir "alice" "pw" (some (.str "keep")) 0
     Option.none ⟨"uid=alice,ou=Users,dc=kaligulix,dc=com", some "alice"⟩ []
     "directory unavailable" rfl rfl rfl rfl⟩

/-- C4: whenever login fails — for any directory behaviour, credentials,
time and configuration — the inbound session carrier is left exactly as it
was: no session is established by a partially completed authentication. -/
theorem C4_failure_leaves_carrier (d : Directory) (username password : String)
    (c : Carrier) (now : ℚ) (env : Option Int) (e : HTTPError) (c2 : Carrier)
    (h : login d username password c now env = (.error e, c2)) :
    c2 = c := by
  rcases login_cases d username password c now env with ⟨hc, -⟩ | ⟨t, s, hok⟩
  · rw [h] at hc
    exact hc
  · rw [h] at hok
    simp at hok

/-- C4 witness: a wrong-password attempt leaves the carrier untouched. -/
theorem C4_failure_leaves_carrier_witness :
    login exampleDir "alice" "wrongpw" (some (.str "mallory-session")) 0 Option.none =
      (.error ⟨401, "Invalid credentials"⟩, some (.str "mallory-session")) ∧
    (some (PyVal.str "mallory-session") : Carrier) = some (.str "mallory-session") :=
  ⟨rfl, C4_failure_leaves_carrier exampleDir "alice" "wrongpw"
    (some (.str "mallory-session")) 0 Option.none ⟨401, "Invalid credentials"⟩
    (some (.str "mallory-session")) rfl⟩

end Corderos
